import Mathlib

/-!
Shallow embedding of the multi-channel post lifecycle orchestrator
(`apps/posts/models.py`, `apps/posts/tasks.py`,
`apps/integrations/translation/tasks.py`) together with proofs of the
specification claims about it.

Modelling conventions:
* Django `TextChoices` enums become Lean inductives.
* Model rows become Lean structures; `auto_now` timestamps are modelled by an
  explicit `now : Nat` argument threaded into every operation that saves.
* Querysets become `List` values; `.filter(...).count()` becomes
  `List.countP`, `.get_or_create` becomes a lookup-or-append on a list keyed
  by the channel id (the database-assigned variant primary key is modelled by
  the channel id, which is unique per variant within one parent).
* Celery task scheduling (`task.delay(pk)`) is modelled by returning the list
  of scheduled primary keys; `self.retry(...)` by a `Bool` flag.
* Calls to the external gateways are modelled by passing the gateway's
  response as an explicit argument and recording in the result whether the
  call was made.
-/

namespace JgglChannels

/-- Status choices for `MultiChannelPost` (`PostStatus` in `models.py`). -/
inductive PostStatus
  | draft
  | readyForPublish
  | publishing
  | published
  | partialPublished
  | failed
deriving DecidableEq, Repr

/-- Status choices for `ChannelPost` (`ChannelPostStatus` in `models.py`). -/
inductive ChannelPostStatus
  | draft
  | pendingTranslation
  | pendingPublish
  | publishing
  | published
  | failed
deriving DecidableEq, Repr

/-- Source type for `ChannelPost` content (`SourceType` in `models.py`). -/
inductive SourceType
  | primary
  | autoTranslated
  | manual
deriving DecidableEq, Repr

/-- A Telegram channel (`apps/telegram_channels/models.py`, `Channel`),
restricted to the fields the orchestrator reads.  `language` is a nullable
foreign key to `Language`; we keep only its `code`. -/
structure Channel where
  id : Nat
  languageCode : Option String
  isActive : Bool
  botCanPost : Bool
deriving DecidableEq, Repr

/-- The parent post (`MultiChannelPost` in `models.py`), restricted to the
fields the orchestrator reads.  `primaryLanguageCode` is the language code of
`primary_channel.language` (nullable). -/
structure MultiChannelPost where
  id : Nat
  primaryChannelId : Nat
  primaryLanguageCode : Option String
  primaryTextMarkdown : String
  autoTranslateEnabled : Bool
  status : PostStatus
  updatedAt : Nat
deriving DecidableEq, Repr

/-- A per-channel post variant (`ChannelPost` in `models.py`). -/
structure ChannelPost where
  id : Nat
  channelId : Nat
  languageCode : Option String
  sourceType : SourceType
  textMarkdown : String
  textTelegramHtml : String
  telegramMessageId : String
  status : ChannelPostStatus
  translationRequested : Bool
  translationReceivedAt : Option Nat
  errorMessage : String
  publishedAt : Option Nat
  updatedAt : Nat
deriving DecidableEq, Repr

/-- `MultiChannelPost.update_status`: recompute the aggregate status from the
set of channel posts.  Returns the (possibly) updated parent together with a
flag that is `true` exactly when the method reached its `save(...)` call. -/
def updateStatus (p : MultiChannelPost) (channelPosts : List ChannelPost)
    (now : Nat) : MultiChannelPost × Bool :=
  let total := channelPosts.length
  if total = 0 then (p, false)
  else
    let published := channelPosts.countP
      (fun v => decide (v.status = ChannelPostStatus.published))
    let failed := channelPosts.countP
      (fun v => decide (v.status = ChannelPostStatus.failed))
    let publishing := channelPosts.countP
      (fun v => decide (v.status = ChannelPostStatus.publishing))
    let newStatus :=
      if published = total then PostStatus.published
      else if failed = total then PostStatus.failed
      else if 0 < published ∧ published + failed = total then
        PostStatus.partialPublished
      else if 0 < publishing then PostStatus.publishing
      else p.status
    ({ p with status := newStatus, updatedAt := now }, true)

section CountLemmas

/-- Counting two distinct statuses separately is the same as counting their
disjunction (the statuses are mutually exclusive). -/
lemma countP_status_add (l : List ChannelPost) (s t : ChannelPostStatus)
    (hst : s ≠ t) :
    l.countP (fun v => decide (v.status = s)) +
        l.countP (fun v => decide (v.status = t)) =
      l.countP (fun v => decide (v.status = s) || decide (v.status = t)) := by
  induction l with
  | nil => rfl
  | cons a l ih =>
    simp only [List.countP_cons]
    by_cases ha : a.status = s
    · simp [ha, hst] <;> omega
    · by_cases hb : a.status = t
      · simp [hb, Ne.symm hst] <;> omega
      · simp [ha, hb] <;> omega

/-- The two-status count equals the length exactly when every element carries
one of the two statuses. -/
lemma countP_status_add_eq_length_iff (l : List ChannelPost)
    (s t : ChannelPostStatus) (hst : s ≠ t) :
    (l.countP (fun v => decide (v.status = s)) +
        l.countP (fun v => decide (v.status = t)) = l.length)
      ↔ ∀ v ∈ l, v.status = s ∨ v.status = t := by
  rw [countP_status_add l s t hst, List.countP_eq_length]
  simp

/-- A single-status count equals the length exactly when every element
carries that status. -/
lemma countP_status_eq_length_iff (l : List ChannelPost)
    (s : ChannelPostStatus) :
    (l.countP (fun v => decide (v.status = s)) = l.length)
      ↔ ∀ v ∈ l, v.status = s := by
  rw [List.countP_eq_length]
  simp

/-- A single-status count is positive exactly when some element carries that
status. -/
lemma countP_status_pos_iff (l : List ChannelPost) (s : ChannelPostStatus) :
    (0 < l.countP (fun v => decide (v.status = s)))
      ↔ ∃ v ∈ l, v.status = s := by
  rw [List.countP_pos_iff]
  simp

end CountLemmas

/-- Unfolding of `updateStatus` in the non-empty case. -/
lemma updateStatus_fst_status (p : MultiChannelPost) (vs : List ChannelPost)
    (now : Nat) (h : ¬ vs.length = 0) :
    (updateStatus p vs now).1.status =
      (if vs.countP (fun v => decide (v.status = ChannelPostStatus.published))
          = vs.length then PostStatus.published
       else if vs.countP (fun v => decide (v.status = ChannelPostStatus.failed))
          = vs.length then PostStatus.failed
       else if 0 < vs.countP
              (fun v => decide (v.status = ChannelPostStatus.published)) ∧
            vs.countP (fun v => decide (v.status = ChannelPostStatus.published))
              + vs.countP
                (fun v => decide (v.status = ChannelPostStatus.failed))
              = vs.length then PostStatus.partialPublished
       else if 0 < vs.countP
              (fun v => decide (v.status = ChannelPostStatus.publishing)) then
         PostStatus.publishing
       else p.status) := by
  simp only [updateStatus, if_neg h]

/-- C1: for every parent post with at least one variant, recomputing the
aggregate status maps the variant statuses to the parent status as follows:
all variants published gives published; otherwise all failed gives failed;
otherwise at least one published with every variant published-or-failed gives
partial_published; otherwise at least one publishing gives publishing; in
every remaining case the parent status is left unchanged. -/
theorem claim_C1_aggregate_status (p : MultiChannelPost)
    (vs : List ChannelPost) (now : Nat) (hne : vs ≠ []) :
    ((∀ v ∈ vs, v.status = ChannelPostStatus.published) →
        (updateStatus p vs now).1.status = PostStatus.published)
    ∧ (¬ (∀ v ∈ vs, v.status = ChannelPostStatus.published) →
        (∀ v ∈ vs, v.status = ChannelPostStatus.failed) →
        (updateStatus p vs now).1.status = PostStatus.failed)
    ∧ (¬ (∀ v ∈ vs, v.status = ChannelPostStatus.published) →
        ¬ (∀ v ∈ vs, v.status = ChannelPostStatus.failed) →
        ((∃ v ∈ vs, v.status = ChannelPostStatus.published) ∧
          ∀ v ∈ vs, v.status = ChannelPostStatus.published ∨
            v.status = ChannelPostStatus.failed) →
        (updateStatus p vs now).1.status = PostStatus.partialPublished)
    ∧ (¬ (∀ v ∈ vs, v.status = ChannelPostStatus.published) →
        ¬ (∀ v ∈ vs, v.status = ChannelPostStatus.failed) →
        ¬ ((∃ v ∈ vs, v.status = ChannelPostStatus.published) ∧
            ∀ v ∈ vs, v.status = ChannelPostStatus.published ∨
              v.status = ChannelPostStatus.failed) →
        (∃ v ∈ vs, v.status = ChannelPostStatus.publishing) →
        (updateStatus p vs now).1.status = PostStatus.publishing)
    ∧ (¬ (∀ v ∈ vs, v.status = ChannelPostStatus.published) →
        ¬ (∀ v ∈ vs, v.status = ChannelPostStatus.failed) →
        ¬ ((∃ v ∈ vs, v.status = ChannelPostStatus.published) ∧
            ∀ v ∈ vs, v.status = ChannelPostStatus.published ∨
              v.status = ChannelPostStatus.failed) →
        ¬ (∃ v ∈ vs, v.status = ChannelPostStatus.publishing) →
        (updateStatus p vs now).1.status = p.status) := by
  have hlen : ¬ vs.length = 0 := by
    simpa [List.length_eq_zero] using hne
  have hunf := updateStatus_fst_status p vs now hlen
  have hP := countP_status_eq_length_iff vs ChannelPostStatus.published
  have hF := countP_status_eq_length_iff vs ChannelPostStatus.failed
  have hPpos := countP_status_pos_iff vs ChannelPostStatus.published
  have hGpos := countP_status_pos_iff vs ChannelPostStatus.publishing
  have hPF := countP_status_add_eq_length_iff vs ChannelPostStatus.published
    ChannelPostStatus.failed (by simp)
  refine ⟨?_, ?_, ?_, ?_, ?_⟩
  · intro hA
    rw [hunf, if_pos (hP.mpr hA)]
  · intro hA hB
    rw [hunf, if_neg (fun h => hA (hP.mp h)), if_pos (hF.mpr hB)]
  · rintro hA hB ⟨hex, hall⟩
    rw [hunf, if_neg (fun h => hA (hP.mp h)),
      if_neg (fun h => hB (hF.mp h)),
      if_pos ⟨hPpos.mpr hex, hPF.mpr hall⟩]
  · intro hA hB hC hD
    rw [hunf, if_neg (fun h => hA (hP.mp h)),
      if_neg (fun h => hB (hF.mp h)),
      if_neg (fun h => hC ⟨hPpos.mp h.1, hPF.mp h.2⟩),
      if_pos (hGpos.mpr hD)]
  · intro hA hB hC hD
    rw [hunf, if_neg (fun h => hA (hP.mp h)),
      if_neg (fun h => hB (hF.mp h)),
      if_neg (fun h => hC ⟨hPpos.mp h.1, hPF.mp h.2⟩),
      if_neg (fun h => hD (hGpos.mp h))]

/-- Example parent post used by concrete witnesses below. -/
def examplePost : MultiChannelPost :=
  { id := 1
    primaryChannelId := 10
    primaryLanguageCode := some "en"
    primaryTextMarkdown := "**Hello**"
    autoTranslateEnabled := true
    status := PostStatus.draft
    updatedAt := 0 }

/-- Example variant (already published) used by concrete witnesses below. -/
def examplePublishedVariant : ChannelPost :=
  { id := 2
    channelId := 10
    languageCode := some "en"
    sourceType := SourceType.primary
    textMarkdown := "**Hello**"
    textTelegramHtml := "<b>Hello</b>"
    telegramMessageId := "777"
    status := ChannelPostStatus.published
    translationRequested := false
    translationReceivedAt := none
    errorMessage := ""
    publishedAt := some 3
    updatedAt := 3 }

/-- Witness for C1: with a single published variant the recomputed parent
status is published. -/
theorem claim_C1_aggregate_status_witness :
    (updateStatus examplePost [examplePublishedVariant] 5).1.status
      = PostStatus.published :=
  (claim_C1_aggregate_status examplePost [examplePublishedVariant] 5
      (by decide)).1 (by decide)

/-- C10: recomputing the aggregate status of a parent with zero variants is a
complete no-op: the parent is returned unchanged and no save is performed. -/
theorem claim_C10_empty_noop (p : MultiChannelPost) (now : Nat) :
    updateStatus p [] now = (p, false) := rfl

/-- The `defaults` dictionary of the `get_or_create` call in
`MultiChannelPost.create_channel_posts`, together with the model-level
defaults of the remaining `ChannelPost` fields.  The database-assigned
primary key is modelled by the channel id (unique within one parent). -/
def variantDefaults (post : MultiChannelPost) (ch : Channel) (now : Nat) :
    ChannelPost :=
  let isPrimary := ch.id = post.primaryChannelId
  { id := ch.id
    channelId := ch.id
    languageCode := ch.languageCode
    sourceType :=
      if isPrimary then SourceType.primary
      else if post.autoTranslateEnabled then SourceType.autoTranslated
      else SourceType.manual
    textMarkdown := if isPrimary then post.primaryTextMarkdown else ""
    textTelegramHtml := ""
    telegramMessageId := ""
    status :=
      if isPrimary then ChannelPostStatus.draft
      else if post.autoTranslateEnabled then
        ChannelPostStatus.pendingTranslation
      else ChannelPostStatus.draft
    translationRequested := false
    translationReceivedAt := none
    errorMessage := ""
    publishedAt := none
    updatedAt := now }

/-- `ChannelPost.objects.get_or_create(multi_post=self, channel=channel,
defaults=...)`: a no-op when a variant for the (parent, channel) pair exists,
otherwise the variant built from the defaults is persisted. -/
def getOrCreate (post : MultiChannelPost) (now : Nat) (ch : Channel)
    (vs : List ChannelPost) : List ChannelPost :=
  match vs.find? (fun v => v.channelId == ch.id) with
  | some _ => vs
  | none => vs ++ [variantDefaults post ch now]

/-- `MultiChannelPost.create_channel_posts`: iterate over the group's active
channels and `get_or_create` a variant for each. -/
def createChannelPosts (post : MultiChannelPost) (channels : List Channel)
    (now : Nat) (vs : List ChannelPost) : List ChannelPost :=
  (channels.filter (fun ch => ch.isActive)).foldl
    (fun acc ch => getOrCreate post now ch acc) vs

lemma getOrCreate_find?_of_some (post : MultiChannelPost) (now : Nat)
    (ch : Channel) {vs : List ChannelPost} {c : Nat} {v : ChannelPost}
    (h : vs.find? (fun x => x.channelId == c) = some v) :
    (getOrCreate post now ch vs).find? (fun x => x.channelId == c) = some v := by
  unfold getOrCreate
  cases hfind : vs.find? (fun x => x.channelId == ch.id) with
  | some w => exact h
  | none => simp [List.find?_append, h]

lemma variantDefaults_channelId (post : MultiChannelPost) (ch : Channel)
    (now : Nat) : (variantDefaults post ch now).channelId = ch.id := rfl

lemma getOrCreate_find?_self_of_none (post : MultiChannelPost) (now : Nat)
    (ch : Channel) {vs : List ChannelPost}
    (h : vs.find? (fun x => x.channelId == ch.id) = none) :
    (getOrCreate post now ch vs).find? (fun x => x.channelId == ch.id)
      = some (variantDefaults post ch now) := by
  unfold getOrCreate
  rw [h]
  simp [List.find?_append, h, variantDefaults_channelId]

lemma getOrCreate_find?_of_ne (post : MultiChannelPost) (now : Nat)
    (ch : Channel) {vs : List ChannelPost} {c : Nat} (hne : ch.id ≠ c)
    (h : vs.find? (fun x => x.channelId == c) = none) :
    (getOrCreate post now ch vs).find? (fun x => x.channelId == c) = none := by
  unfold getOrCreate
  cases hfind : vs.find? (fun x => x.channelId == ch.id) with
  | some w => exact h
  | none => simp [List.find?_append, h, variantDefaults_channelId, hne]

lemma foldl_getOrCreate_find?_of_some (post : MultiChannelPost) (now : Nat)
    (cs : List Channel) {vs : List ChannelPost} {c : Nat} {v : ChannelPost}
    (h : vs.find? (fun x => x.channelId == c) = some v) :
    (cs.foldl (fun acc ch => getOrCreate post now ch acc) vs).find?
      (fun x => x.channelId == c) = some v := by
  induction cs generalizing vs with
  | nil => simpa using h
  | cons a cs ih =>
    simp only [List.foldl_cons]
    exact ih (getOrCreate_find?_of_some post now a h)

lemma foldl_getOrCreate_find?_mem (post : MultiChannelPost) (now : Nat)
    (cs : List Channel) {vs : List ChannelPost} (ch : Channel)
    (hmem : ch ∈ cs) (hnodup : (cs.map Channel.id).Nodup)
    (h : vs.find? (fun x => x.channelId == ch.id) = none) :
    (cs.foldl (fun acc ch' => getOrCreate post now ch' acc) vs).find?
      (fun x => x.channelId == ch.id) = some (variantDefaults post ch now) := by
  induction cs generalizing vs with
  | nil => cases hmem
  | cons a cs ih =>
    simp only [List.map_cons, List.nodup_cons] at hnodup
    simp only [List.foldl_cons]
    rcases List.mem_cons.mp hmem with rfl | hmem'
    · exact foldl_getOrCreate_find?_of_some post now cs
        (getOrCreate_find?_self_of_none post now ch h)
    · have hane : a.id ≠ ch.id := by
        intro hEq
        exact hnodup.1 (hEq ▸ List.mem_map_of_mem Channel.id hmem')
      exact ih hmem' hnodup.2 (getOrCreate_find?_of_ne post now a hane h)

lemma foldl_getOrCreate_length (post : MultiChannelPost) (now : Nat)
    (cs : List Channel) (vs : List ChannelPost)
    (hfresh : ∀ ch ∈ cs, vs.find? (fun x => x.channelId == ch.id) = none)
    (hnodup : (cs.map Channel.id).Nodup) :
    (cs.foldl (fun acc ch => getOrCreate post now ch acc) vs).length
      = vs.length + cs.length := by
  induction cs generalizing vs with
  | nil => simp
  | cons a cs ih =>
    simp only [List.map_cons, List.nodup_cons] at hnodup
    simp only [List.foldl_cons]
    have hvs' : getOrCreate post now a vs
        = vs ++ [variantDefaults post a now] := by
      unfold getOrCreate
      rw [hfresh a (List.mem_cons_self a cs)]
    have hfresh' : ∀ ch ∈ cs,
        (vs ++ [variantDefaults post a now]).find?
          (fun x => x.channelId == ch.id) = none := by
      intro ch hch
      have hane : a.id ≠ ch.id := by
        intro hEq
        exact hnodup.1 (hEq ▸ List.mem_map_of_mem Channel.id hch)
      simp [List.find?_append, hfresh ch (List.mem_cons_of_mem a hch),
        variantDefaults_channelId, hane]
    rw [hvs', ih _ hfresh' hnodup.2]
    simp only [List.length_append, List.length_cons, List.length_nil]
    omega

lemma getOrCreate_of_isSome (post : MultiChannelPost) (now : Nat)
    (ch : Channel) (vs : List ChannelPost)
    (h : (vs.find? (fun x => x.channelId == ch.id)).isSome) :
    getOrCreate post now ch vs = vs := by
  unfold getOrCreate
  cases hfind : vs.find? (fun x => x.channelId == ch.id) with
  | some w => rfl
  | none => rw [hfind] at h; cases h

lemma foldl_getOrCreate_isSome (post : MultiChannelPost) (now : Nat)
    (cs : List Channel) {vs : List ChannelPost} (ch : Channel)
    (hmem : ch ∈ cs) :
    ((cs.foldl (fun acc ch' => getOrCreate post now ch' acc) vs).find?
      (fun x => x.channelId == ch.id)).isSome := by
  induction cs generalizing vs with
  | nil => cases hmem
  | cons a cs ih =>
    simp only [List.foldl_cons]
    rcases List.mem_cons.mp hmem with rfl | hmem'
    · cases hfind : vs.find? (fun x => x.channelId == ch.id) with
      | some v =>
        rw [foldl_getOrCreate_find?_of_some post now cs
          (getOrCreate_find?_of_some post now ch hfind)]
        rfl
      | none =>
        rw [foldl_getOrCreate_find?_of_some post now cs
          (getOrCreate_find?_self_of_none post now ch hfind)]
        rfl
    · exact ih hmem'

lemma foldl_getOrCreate_fixed (post : MultiChannelPost) (now : Nat)
    (cs : List Channel) (vs : List ChannelPost)
    (h : ∀ ch ∈ cs, (vs.find? (fun x => x.channelId == ch.id)).isSome) :
    cs.foldl (fun acc ch => getOrCreate post now ch acc) vs = vs := by
  induction cs with
  | nil => rfl
  | cons a cs ih =>
    simp only [List.foldl_cons,
      getOrCreate_of_isSome post now a vs (h a (List.mem_cons_self a cs))]
    exact ih (fun ch hch => h ch (List.mem_cons_of_mem a hch))

/-- C2: fan-out creates, for every active channel of the group, exactly one
variant whose source-type is primary when the channel is the parent's primary
channel, else auto_translated when the parent's auto-translate flag is set,
else manual; whose initial status is draft for primary or manual source-type
and pending_translation for auto_translated; and the created variant does not
depend on the iteration order over the channels. -/
theorem claim_C2_fanout (post : MultiChannelPost) (channels : List Channel)
    (now : Nat) (hnodup : (channels.map Channel.id).Nodup) (ch : Channel)
    (hmem : ch ∈ channels) (hact : ch.isActive = true) :
    ((createChannelPosts post channels now []).find?
        (fun v => v.channelId == ch.id) = some (variantDefaults post ch now))
    ∧ (∀ channels' : List Channel, channels'.Perm channels →
        (createChannelPosts post channels' now []).find?
          (fun v => v.channelId == ch.id) = some (variantDefaults post ch now))
    ∧ ((variantDefaults post ch now).sourceType =
        if ch.id = post.primaryChannelId then SourceType.primary
        else if post.autoTranslateEnabled then SourceType.autoTranslated
        else SourceType.manual)
    ∧ ((variantDefaults post ch now).sourceType = SourceType.primary ∨
          (variantDefaults post ch now).sourceType = SourceType.manual →
        (variantDefaults post ch now).status = ChannelPostStatus.draft)
    ∧ ((variantDefaults post ch now).sourceType = SourceType.autoTranslated →
        (variantDefaults post ch now).status
          = ChannelPostStatus.pendingTranslation)
    ∧ (createChannelPosts post channels now []).length
        = (channels.filter (fun c => c.isActive)).length := by
  have hchar : ∀ cs : List Channel, (cs.map Channel.id).Nodup → ch ∈ cs →
      (createChannelPosts post cs now []).find?
        (fun v => v.channelId == ch.id)
        = some (variantDefaults post ch now) := by
    intro cs hnd hm
    unfold createChannelPosts
    have hmemf : ch ∈ cs.filter (fun c => c.isActive) :=
      List.mem_filter.mpr ⟨hm, hact⟩
    have hsub : ((cs.filter (fun c => c.isActive)).map Channel.id).Sublist
        (cs.map Channel.id) :=
      (List.filter_sublist cs).map Channel.id
    have hndf : ((cs.filter (fun c => c.isActive)).map Channel.id).Nodup :=
      hnd.sublist hsub
    exact foldl_getOrCreate_find?_mem post now _ ch hmemf hndf rfl
  refine ⟨hchar channels hnodup hmem, ?_, ?_, ?_, ?_, ?_⟩
  · intro channels' hperm
    have hnd' : (channels'.map Channel.id).Nodup :=
      ((hperm.map Channel.id).nodup_iff).mpr hnodup
    exact hchar channels' hnd' (hperm.mem_iff.mpr hmem)
  · by_cases h1 : ch.id = post.primaryChannelId <;>
      by_cases h2 : post.autoTranslateEnabled <;>
      simp [variantDefaults, h1, h2]
  · by_cases h1 : ch.id = post.primaryChannelId <;>
      by_cases h2 : post.autoTranslateEnabled <;>
      simp [variantDefaults, h1, h2]
  · by_cases h1 : ch.id = post.primaryChannelId <;>
      by_cases h2 : post.autoTranslateEnabled <;>
      simp [variantDefaults, h1, h2]
  · unfold createChannelPosts
    have hsub : ((channels.filter (fun c => c.isActive)).map
        Channel.id).Sublist (channels.map Channel.id) :=
      (List.filter_sublist channels).map Channel.id
    have hndf :
        ((channels.filter (fun c => c.isActive)).map Channel.id).Nodup :=
      hnodup.sublist hsub
    have := foldl_getOrCreate_length post now
      (channels.filter (fun c => c.isActive)) []
      (fun ch _ => rfl) hndf
    simpa using this

/-- Example primary channel used by concrete witnesses below. -/
def exampleChannelEn : Channel :=
  { id := 10, languageCode := some "en", isActive := true, botCanPost := true }

/-- Example secondary channel used by concrete witnesses below. -/
def exampleChannelRu : Channel :=
  { id := 11, languageCode := some "ru", isActive := true, botCanPost := true }

/-- Witness for C2: fanning out `examplePost` over an English primary channel
and a Russian channel creates the Russian variant from the defaults, and two
variants in total. -/
theorem claim_C2_fanout_witness :
    ((createChannelPosts examplePost [exampleChannelEn, exampleChannelRu] 4
        []).find? (fun v => v.channelId == exampleChannelRu.id)
      = some (variantDefaults examplePost exampleChannelRu 4))
    ∧ (createChannelPosts examplePost [exampleChannelEn, exampleChannelRu] 4
        []).length = 2 := by
  have h := claim_C2_fanout examplePost [exampleChannelEn, exampleChannelRu]
    4 (by decide) exampleChannelRu (by decide) (by decide)
  refine ⟨h.1, ?_⟩
  rw [h.2.2.2.2.2]
  decide

/-- C3: fan-out is idempotent.  Creating a variant for a (parent, channel)
pair that already has one is a no-op, no matter how many times it is
re-invoked, and re-running the whole fan-out leaves the variant set
unchanged. -/
theorem claim_C3_fanout_idempotent (post : MultiChannelPost)
    (channels : List Channel) (now now' : Nat) (vs : List ChannelPost) :
    (∀ ch : Channel, ∀ v : ChannelPost,
        vs.find? (fun x => x.channelId == ch.id) = some v →
        ∀ n : Nat, (getOrCreate post now' ch)^[n] vs = vs)
    ∧ createChannelPosts post channels now'
        (createChannelPosts post channels now vs)
      = createChannelPosts post channels now vs := by
  constructor
  · intro ch v h n
    refine Function.iterate_fixed ?_ n
    exact getOrCreate_of_isSome post now' ch vs (by rw [h]; rfl)
  · unfold createChannelPosts
    refine foldl_getOrCreate_fixed post now' _ _ ?_
    intro ch hch
    exact foldl_getOrCreate_isSome post now _ ch hch

/-- Witness for C3: re-creating the Russian variant twice is a no-op, and
re-running the whole fan-out is a no-op. -/
theorem claim_C3_fanout_idempotent_witness :
    ((getOrCreate examplePost 5 exampleChannelRu)^[2]
        [variantDefaults examplePost exampleChannelRu 4]
      = [variantDefaults examplePost exampleChannelRu 4])
    ∧ createChannelPosts examplePost [exampleChannelEn, exampleChannelRu] 5
        (createChannelPosts examplePost [exampleChannelEn, exampleChannelRu] 4
          [variantDefaults examplePost exampleChannelRu 4])
      = createChannelPosts examplePost [exampleChannelEn, exampleChannelRu] 4
          [variantDefaults examplePost exampleChannelRu 4] := by
  have h := claim_C3_fanout_idempotent examplePost
    [exampleChannelEn, exampleChannelRu] 4 5
    [variantDefaults examplePost exampleChannelRu 4]
  exact ⟨h.1 exampleChannelRu (variantDefaults examplePost exampleChannelRu 4)
    (by decide) 2, h.2⟩

/-- The possible responses of
`TelegramBotClient.send_message_sync` as observed by `publish_channel_post`:
a result dict (whose `message_id` may be missing), a raised
`TelegramBotGatewayError` carrying a code and a message, or any other raised
exception. -/
inductive GatewaySendResult
  | ok (messageId : Option String)
  | gatewayError (code : String) (msg : String)
  | exn (msg : String)
deriving DecidableEq, Repr

/-- The transient Telegram gateway error codes retried by
`publish_channel_post`. -/
def telegramTransientCodes : List String :=
  ["TELEGRAM_RATE_LIMIT", "TELEGRAM_UNAVAILABLE", "TIMEOUT"]

/-- `max_retries` of the `publish_channel_post` Celery task. -/
def publishTaskMaxRetries : Nat := 3

/-- `ChannelPost.mark_published`. -/
def markPublished (now : Nat) (messageId : String) (v : ChannelPost) :
    ChannelPost :=
  { v with
    status := ChannelPostStatus.published
    telegramMessageId := messageId
    publishedAt := some now
    errorMessage := ""
    updatedAt := now }

/-- `ChannelPost.mark_failed`. -/
def markFailed (now : Nat) (msg : String) (v : ChannelPost) : ChannelPost :=
  { v with
    status := ChannelPostStatus.failed
    errorMessage := msg
    updatedAt := now }

/-- Result of one invocation of the `publish_channel_post` task:
the saved variant, the idempotency key passed to the gateway (`none` when the
gateway was never called), and whether `self.retry` was raised. -/
structure PublishOutcome where
  post : ChannelPost
  idempotencyKeySent : Option String
  retried : Bool
deriving DecidableEq, Repr

/-- `publish_channel_post` (`apps/posts/tasks.py`): publish a single channel
post through the bot gateway.  `mdToHtml` is the external
`markdown_to_telegram_html` transform; `gateway` is the gateway's response to
the send call. -/
def publishChannelPost (mdToHtml : String → String) (ch : Channel)
    (now : Nat) (gateway : GatewaySendResult) (v : ChannelPost) :
    PublishOutcome :=
  if !ch.botCanPost then
    { post := markFailed now "Bot does not have posting permissions" v
      idempotencyKeySent := none
      retried := false }
  else if v.textTelegramHtml = "" ∧ v.textMarkdown = "" then
    { post := markFailed now "No content to publish" v
      idempotencyKeySent := none
      retried := false }
  else
    let v1 :=
      if v.textTelegramHtml = "" then
        { v with textTelegramHtml := mdToHtml v.textMarkdown
                 updatedAt := now }
      else v
    let v2 := { v1 with status := ChannelPostStatus.publishing
                        updatedAt := now }
    let key := "post-" ++ toString v2.id ++ "-" ++ toString v2.updatedAt
    match gateway with
    | GatewaySendResult.ok (some messageId) =>
        { post := markPublished now messageId v2
          idempotencyKeySent := some key
          retried := false }
    | GatewaySendResult.ok none =>
        { post := markFailed now "No message ID received from Telegram" v2
          idempotencyKeySent := some key
          retried := false }
    | GatewaySendResult.gatewayError code msg =>
        let errorMsg := "[" ++ code ++ "] " ++ msg
        if code ∈ telegramTransientCodes then
          { post := { v2 with status := ChannelPostStatus.pendingPublish
                              errorMessage := "Retrying: " ++ errorMsg
                              updatedAt := now }
            idempotencyKeySent := some key
            retried := true }
        else
          { post := markFailed now errorMsg v2
            idempotencyKeySent := some key
            retried := false }
    | GatewaySendResult.exn msg =>
        { post := markFailed now msg v2
          idempotencyKeySent := some key
          retried := true }

/-- Example variant awaiting publication, used by concrete theorems below. -/
def examplePendingVariant : ChannelPost :=
  { id := 5
    channelId := 11
    languageCode := some "ru"
    sourceType := SourceType.autoTranslated
    textMarkdown := "Privet"
    textTelegramHtml := "Privet"
    telegramMessageId := ""
    status := ChannelPostStatus.draft
    translationRequested := true
    translationReceivedAt := some 2
    errorMessage := ""
    publishedAt := none
    updatedAt := 0 }

/-- C4, evaluated at a failing input: the task saves `status = publishing`
(which refreshes `updated_at`) before deriving the idempotency key from
`updated_at`, so two invocations of the publish task on the same variant with
no intervening state change send two different idempotency keys, and a
retried call is not protected against double-posting. -/
theorem claim_C4_key_not_stable :
    (publishChannelPost (fun s => s) exampleChannelRu 10
        (GatewaySendResult.gatewayError "TIMEOUT" "gateway timeout")
        examplePendingVariant).idempotencyKeySent = some "post-5-10"
    ∧ (publishChannelPost (fun s => s) exampleChannelRu 11
        (GatewaySendResult.gatewayError "TIMEOUT" "gateway timeout")
        (publishChannelPost (fun s => s) exampleChannelRu 10
          (GatewaySendResult.gatewayError "TIMEOUT" "gateway timeout")
          examplePendingVariant).post).idempotencyKeySent = some "post-5-11"
    ∧ (publishChannelPost (fun s => s) exampleChannelRu 10
        (GatewaySendResult.gatewayError "TIMEOUT" "gateway timeout")
        examplePendingVariant).idempotencyKeySent
      ≠ (publishChannelPost (fun s => s) exampleChannelRu 11
        (GatewaySendResult.gatewayError "TIMEOUT" "gateway timeout")
        (publishChannelPost (fun s => s) exampleChannelRu 10
          (GatewaySendResult.gatewayError "TIMEOUT" "gateway timeout")
          examplePendingVariant).post).idempotencyKeySent := by
  refine ⟨rfl, rfl, ?_⟩
  decide

/-- C6: during publication, a gateway error with a transient code (rate
limit, unavailable, timeout) moves the variant to pending_publish, records a
retry marker, and schedules a bounded retry (the task's retry ceiling is 3);
a gateway error with any other code immediately moves the variant to failed
with the gateway's error surfaced verbatim, and no retry is scheduled. -/
theorem claim_C6_error_classification (mdToHtml : String → String)
    (ch : Channel) (now : Nat) (code msg : String) (v : ChannelPost)
    (hpost : ch.botCanPost = true) (hcontent : v.textTelegramHtml ≠ "") :
    (code ∈ telegramTransientCodes →
        (publishChannelPost mdToHtml ch now
            (GatewaySendResult.gatewayError code msg) v).post.status
          = ChannelPostStatus.pendingPublish
        ∧ (publishChannelPost mdToHtml ch now
            (GatewaySendResult.gatewayError code msg) v).post.errorMessage
          = "Retrying: " ++ ("[" ++ code ++ "] " ++ msg)
        ∧ (publishChannelPost mdToHtml ch now
            (GatewaySendResult.gatewayError code msg) v).retried = true
        ∧ publishTaskMaxRetries = 3)
    ∧ (code ∉ telegramTransientCodes →
        (publishChannelPost mdToHtml ch now
            (GatewaySendResult.gatewayError code msg) v).post.status
          = ChannelPostStatus.failed
        ∧ (publishChannelPost mdToHtml ch now
            (GatewaySendResult.gatewayError code msg) v).post.errorMessage
          = "[" ++ code ++ "] " ++ msg
        ∧ (publishChannelPost mdToHtml ch now
            (GatewaySendResult.gatewayError code msg) v).retried = false) := by
  constructor
  · intro hc
    refine ⟨?_, ?_, ?_, rfl⟩ <;>
      simp [publishChannelPost, hpost, hcontent, hc]
  · intro hc
    refine ⟨?_, ?_, ?_⟩ <;>
      simp [publishChannelPost, markFailed, hpost, hcontent, hc]

/-- Witness for C6: a timeout moves the example variant to pending_publish
with a retry; a permission error moves it to failed with the formatted
gateway error recorded. -/
theorem claim_C6_error_classification_witness :
    (publishChannelPost (fun s => s) exampleChannelRu 10
        (GatewaySendResult.gatewayError "TIMEOUT" "gateway timeout")
        examplePendingVariant).post.status = ChannelPostStatus.pendingPublish
    ∧ (publishChannelPost (fun s => s) exampleChannelRu 10
        (GatewaySendResult.gatewayError "FORBIDDEN" "no permission")
        examplePendingVariant).post.status = ChannelPostStatus.failed
    ∧ (publishChannelPost (fun s => s) exampleChannelRu 10
        (GatewaySendResult.gatewayError "FORBIDDEN" "no permission")
        examplePendingVariant).post.errorMessage
      = "[" ++ "FORBIDDEN" ++ "] " ++ "no permission" := by
  have ht := claim_C6_error_classification (fun s => s) exampleChannelRu 10
    "TIMEOUT" "gateway timeout" examplePendingVariant rfl (by decide)
  have hp := claim_C6_error_classification (fun s => s) exampleChannelRu 10
    "FORBIDDEN" "no permission" examplePendingVariant rfl (by decide)
  exact ⟨(ht.1 (by decide)).1, (hp.2 (by decide)).1, (hp.2 (by decide)).2.1⟩

/-- The possible responses of `TranslationClient.translate_sync` as observed
by `translate_channel_post`: a translation, a raised `TranslationError`
carrying a code and a message, or any other raised exception. -/
inductive SingleTranslationResult
  | ok (text : String)
  | err (code : String) (msg : String)
  | exn (msg : String)
deriving DecidableEq, Repr

/-- The transient translation-service error codes retried by the translation
tasks. -/
def llmTransientCodes : List String :=
  ["LLM_RATE_LIMIT", "LLM_UNAVAILABLE", "LLM_TIMEOUT"]

/-- Result of one invocation of the `translate_channel_post` task
(`apps/posts/tasks.py`): the saved variant, whether the translation service
was called, and whether `self.retry` was raised. -/
structure TranslateOutcome where
  post : ChannelPost
  serviceCalled : Bool
  retried : Bool
deriving DecidableEq, Repr

/-- `ChannelPost.convert_to_telegram_html`: regenerate the Telegram HTML from
the markdown when the latter is non-empty. -/
def convertToTelegramHtml (mdToHtml : String → String) (now : Nat)
    (v : ChannelPost) : ChannelPost :=
  if v.textMarkdown ≠ "" then
    { v with textTelegramHtml := mdToHtml v.textMarkdown, updatedAt := now }
  else v

/-- `translate_channel_post` (`apps/posts/tasks.py`): translate a single
channel post using the LLM translation service.  `parent` is the variant's
`multi_post`; `service` is the translation service's response. -/
def translateChannelPost (mdToHtml : String → String)
    (parent : MultiChannelPost) (now : Nat)
    (service : SingleTranslationResult) (v : ChannelPost) :
    TranslateOutcome :=
  if v.sourceType = SourceType.primary then
    { post := v, serviceCalled := false, retried := false }
  else if parent.primaryTextMarkdown = "" then
    { post := { v with errorMessage := "No source text to translate"
                       status := ChannelPostStatus.draft
                       updatedAt := now }
      serviceCalled := false
      retried := false }
  else
    match parent.primaryLanguageCode with
    | none =>
        { post := { v with errorMessage := "Source channel has no language set"
                           status := ChannelPostStatus.draft
                           updatedAt := now }
          serviceCalled := false
          retried := false }
    | some sourceCode =>
      match v.languageCode with
      | none =>
          { post :=
              { v with errorMessage := "Target channel has no language set"
                       status := ChannelPostStatus.draft
                       updatedAt := now }
            serviceCalled := false
            retried := false }
      | some targetCode =>
        if sourceCode = targetCode then
          let v1 := { v with textMarkdown := parent.primaryTextMarkdown
                             status := ChannelPostStatus.draft
                             updatedAt := now }
          { post := convertToTelegramHtml mdToHtml now v1
            serviceCalled := false
            retried := false }
        else
          match service with
          | SingleTranslationResult.ok translation =>
              let v1 := { v with textMarkdown := translation
                                 translationRequested := true
                                 translationReceivedAt := some now
                                 status := ChannelPostStatus.draft
                                 errorMessage := ""
                                 updatedAt := now }
              { post := convertToTelegramHtml mdToHtml now v1
                serviceCalled := true
                retried := false }
          | SingleTranslationResult.err code msg =>
              let errorMsg := "[" ++ code ++ "] " ++ msg
              if code ∈ llmTransientCodes then
                { post := { v with errorMessage := "Retrying: " ++ errorMsg
                                   updatedAt := now }
                  serviceCalled := true
                  retried := true }
              else
                { post := { v with status := ChannelPostStatus.draft
                                   errorMessage := errorMsg
                                   updatedAt := now }
                  serviceCalled := true
                  retried := false }
          | SingleTranslationResult.exn msg =>
              { post := { v with errorMessage :=
                                   "Translation failed: " ++ msg
                                 updatedAt := now }
                serviceCalled := true
                retried := true }

/-- C7: for every non-primary variant whose translation is attempted, if the
parent's source text is empty, or the source language is unset, or the
target language is unset, the task fails without calling the translation
service; the variant ends in status draft (never pending_translation) with
the matching descriptive error message recorded. -/
theorem claim_C7_translation_guards (mdToHtml : String → String)
    (parent : MultiChannelPost) (now : Nat)
    (service : SingleTranslationResult) (v : ChannelPost)
    (hnp : v.sourceType ≠ SourceType.primary)
    (hguard : parent.primaryTextMarkdown = ""
      ∨ parent.primaryLanguageCode = none ∨ v.languageCode = none) :
    (translateChannelPost mdToHtml parent now service v).serviceCalled = false
    ∧ (translateChannelPost mdToHtml parent now service v).post.status
        = ChannelPostStatus.draft
    ∧ (translateChannelPost mdToHtml parent now service v).post.status
        ≠ ChannelPostStatus.pendingTranslation
    ∧ (translateChannelPost mdToHtml parent now service v).post.errorMessage
        = (if parent.primaryTextMarkdown = "" then
            "No source text to translate"
          else if parent.primaryLanguageCode = none then
            "Source channel has no language set"
          else "Target channel has no language set") := by
  by_cases ht : parent.primaryTextMarkdown = ""
  · refine ⟨?_, ?_, ?_, ?_⟩ <;> simp [translateChannelPost, hnp, ht]
  · by_cases hs : parent.primaryLanguageCode = none
    · refine ⟨?_, ?_, ?_, ?_⟩ <;> simp [translateChannelPost, hnp, ht, hs]
    · have hv : v.languageCode = none := by
        rcases hguard with h | h | h
        · exact absurd h ht
        · exact absurd h hs
        · exact h
      rcases hsc : parent.primaryLanguageCode with _ | sourceCode
      · exact absurd hsc hs
      · refine ⟨?_, ?_, ?_, ?_⟩ <;>
          simp [translateChannelPost, hnp, ht, hs, hsc, hv]

/-- Example non-primary variant with no target language, used by the C7
witness. -/
def exampleNoLanguageVariant : ChannelPost :=
  { examplePendingVariant with
    languageCode := none
    status := ChannelPostStatus.pendingTranslation }

/-- Witness for C7: with the target language unset, the example variant ends
in draft with the descriptive error and the service is not called. -/
theorem claim_C7_translation_guards_witness :
    (translateChannelPost (fun s => s) examplePost 6
        (SingleTranslationResult.ok "Privet")
        exampleNoLanguageVariant).serviceCalled = false
    ∧ (translateChannelPost (fun s => s) examplePost 6
        (SingleTranslationResult.ok "Privet")
        exampleNoLanguageVariant).post.status = ChannelPostStatus.draft := by
  have h := claim_C7_translation_guards (fun s => s) examplePost 6
    (SingleTranslationResult.ok "Privet") exampleNoLanguageVariant
    (by decide) (Or.inr (Or.inr rfl))
  exact ⟨h.1, h.2.1⟩

/-- C9: the translation task never modifies a variant whose source-type is
primary: it returns immediately, without calling the translation service,
leaving every field of the variant (content, status, timestamps) unchanged. -/
theorem claim_C9_primary_untouched (mdToHtml : String → String)
    (parent : MultiChannelPost) (now : Nat)
    (service : SingleTranslationResult) (v : ChannelPost)
    (h : v.sourceType = SourceType.primary) :
    translateChannelPost mdToHtml parent now service v
      = { post := v, serviceCalled := false, retried := false } := by
  simp [translateChannelPost, h]

/-- Witness for C9: translating the primary example variant is a no-op. -/
theorem claim_C9_primary_untouched_witness :
    translateChannelPost (fun s => s) examplePost 6
        (SingleTranslationResult.ok "Bonjour") examplePublishedVariant
      = { post := examplePublishedVariant
          serviceCalled := false
          retried := false } :=
  claim_C9_primary_untouched (fun s => s) examplePost 6
    (SingleTranslationResult.ok "Bonjour") examplePublishedVariant rfl

/-- `publish_ready_channel_posts` (`apps/posts/tasks.py`): queue publishing
for the ready channel posts only.  Each variant is paired with its channel;
the returned list holds the primary keys handed to `publish_channel_post`. -/
def publishReadyChannelPosts (pairs : List (ChannelPost × Channel)) :
    List Nat :=
  (pairs.filter (fun pc =>
      pc.2.isActive && pc.2.botCanPost
        && (decide (pc.1.status = ChannelPostStatus.draft)
            || decide (pc.1.status = ChannelPostStatus.pendingPublish))
        && !(decide (pc.1.textMarkdown = "")))).map (fun pc => pc.1.id)

/-- C8: the publish-ready operation schedules publishing exactly for the
variants in status draft or pending_publish with non-empty content on an
active, posting-capable channel; variants in pending_translation or failed
are never scheduled by it. -/
theorem claim_C8_publish_ready (pairs : List (ChannelPost × Channel))
    (hids : (pairs.map (fun pc => pc.1.id)).Nodup)
    (v : ChannelPost) (ch : Channel) (hmem : (v, ch) ∈ pairs) :
    (v.id ∈ publishReadyChannelPosts pairs ↔
      ch.isActive = true ∧ ch.botCanPost = true
        ∧ (v.status = ChannelPostStatus.draft
            ∨ v.status = ChannelPostStatus.pendingPublish)
        ∧ v.textMarkdown ≠ "")
    ∧ ((v.status = ChannelPostStatus.pendingTranslation
          ∨ v.status = ChannelPostStatus.failed) →
        v.id ∉ publishReadyChannelPosts pairs) := by
  have hiff : v.id ∈ publishReadyChannelPosts pairs ↔
      ch.isActive = true ∧ ch.botCanPost = true
        ∧ (v.status = ChannelPostStatus.draft
            ∨ v.status = ChannelPostStatus.pendingPublish)
        ∧ v.textMarkdown ≠ "" := by
    constructor
    · intro hin
      unfold publishReadyChannelPosts at hin
      rcases List.mem_map.mp hin with ⟨pc, hpcmem, hpcid⟩
      have hpcin : pc ∈ pairs := List.mem_of_mem_filter hpcmem
      have hpred := List.of_mem_filter hpcmem
      have hpceq : pc = (v, ch) :=
        List.inj_on_of_nodup_map hids hpcin hmem hpcid
      rw [hpceq] at hpred
      simp only [Bool.and_eq_true, Bool.or_eq_true, Bool.not_eq_true',
        decide_eq_true_eq, decide_eq_false_iff_not] at hpred
      exact ⟨hpred.1.1.1, hpred.1.1.2, hpred.1.2, hpred.2⟩
    · intro hcond
      rcases hcond with ⟨h1, h2, h3, h4⟩
      unfold publishReadyChannelPosts
      refine List.mem_map.mpr ⟨(v, ch), List.mem_filter.mpr ⟨hmem, ?_⟩, rfl⟩
      rcases h3 with h3 | h3 <;> simp [h1, h2, h3, h4]
  refine ⟨hiff, ?_⟩
  intro hbad hin
  have hcond := hiff.mp hin
  rcases hbad with hb | hb <;> rcases hcond.2.2.1 with hc | hc <;>
    simp [hb] at hc

/-- Example failed variant on a German channel, used by the C8 witness. -/
def exampleFailedVariant : ChannelPost :=
  { examplePendingVariant with
    id := 6
    channelId := 12
    languageCode := some "de"
    status := ChannelPostStatus.failed
    errorMessage := "[FORBIDDEN] no permission" }

/-- Example German channel used by concrete witnesses below. -/
def exampleChannelDe : Channel :=
  { id := 12, languageCode := some "de", isActive := true, botCanPost := true }

/-- Witness for C8: the draft variant with content is scheduled, the failed
variant is not. -/
theorem claim_C8_publish_ready_witness :
    examplePendingVariant.id ∈ publishReadyChannelPosts
        [(examplePendingVariant, exampleChannelRu),
          (exampleFailedVariant, exampleChannelDe)]
    ∧ exampleFailedVariant.id ∉ publishReadyChannelPosts
        [(examplePendingVariant, exampleChannelRu),
          (exampleFailedVariant, exampleChannelDe)] := by
  have h1 := claim_C8_publish_ready
    [(examplePendingVariant, exampleChannelRu),
      (exampleFailedVariant, exampleChannelDe)] (by decide)
    examplePendingVariant exampleChannelRu (by decide)
  have h2 := claim_C8_publish_ready
    [(examplePendingVariant, exampleChannelRu),
      (exampleFailedVariant, exampleChannelDe)] (by decide)
    exampleFailedVariant exampleChannelDe (by decide)
  exact ⟨h1.1.mpr (by decide), h2.2 (Or.inr rfl)⟩

/-- `request_translations` (`apps/posts/tasks.py`): select the auto-translated
variants pending translation whose language differs from the primary
channel's language and schedule one `translate_channel_post` task per
variant.  The returned list holds the scheduled primary keys. -/
def requestTranslations (post : MultiChannelPost)
    (variants : List ChannelPost) : List Nat :=
  (variants.filter (fun v =>
      decide (v.sourceType = SourceType.autoTranslated)
        && decide (v.status = ChannelPostStatus.pendingTranslation)
        && !(decide (v.languageCode = post.primaryLanguageCode)))).map
    (fun v => v.id)

/-- The possible responses of `TranslationClient.batch_translate_sync` as
observed by `translate_multi_post`: a language-to-translation map (partial
results allowed), a raised `TranslationError`, or any other raised
exception. -/
inductive BatchTranslationResult
  | ok (translations : List (String × String))
  | err (code : String) (msg : String)
  | exn (msg : String)
deriving DecidableEq, Repr

/-- Result of one invocation of the `translate_multi_post` task
(`apps/integrations/translation/tasks.py`): the saved variants, whether the
batch call was made, the primary keys scheduled for individual fallback
translation, and whether `self.retry` was raised. -/
structure BatchTranslateOutcome where
  variants : List ChannelPost
  batchCalled : Bool
  fallbackIds : List Nat
  retried : Bool
deriving DecidableEq, Repr

/-- The pending-posts queryset of `translate_multi_post`: status
pending_translation, no received translation, language code different from
the source language code. -/
def pendingForBatch (srcCode : String) (variants : List ChannelPost) :
    List ChannelPost :=
  variants.filter (fun v =>
    decide (v.status = ChannelPostStatus.pendingTranslation)
      && decide (v.translationReceivedAt = none)
      && !(decide (v.languageCode = some srcCode)))

/-- The `post_by_language` map of `translate_multi_post`: one representative
variant per language code, first occurrence wins, variants without a
language skipped. -/
def buildByLanguage (pending : List ChannelPost) :
    List (String × ChannelPost) :=
  pending.foldl (fun acc v =>
    match v.languageCode with
    | none => acc
    | some code =>
        if (acc.find? (fun p => p.1 == code)).isSome then acc
        else acc ++ [(code, v)]) []

/-- The per-variant effect of the two update loops of
`translate_multi_post`: a variant that is the representative of its language
receives the translation when its language is in the batch result, and only
an error message (status untouched) when it is not; all other variants are
untouched. -/
def applyBatchResult (byLang : List (String × ChannelPost))
    (translations : List (String × String)) (now : Nat) (v : ChannelPost) :
    ChannelPost :=
  match byLang.find? (fun p => p.2.id == v.id) with
  | none => v
  | some (lang, _) =>
    match translations.find? (fun t => t.1 == lang) with
    | some t =>
        { v with textMarkdown := t.2
                 sourceType := SourceType.autoTranslated
                 status := ChannelPostStatus.draft
                 translationReceivedAt := some now
                 errorMessage := ""
                 updatedAt := now }
    | none =>
        { v with errorMessage := "Translation to " ++ lang ++ " failed"
                 updatedAt := now }

/-- `translate_multi_post` (`apps/integrations/translation/tasks.py`):
translate all pending channel posts of a parent with a single batch call,
falling back to individual `translate_channel_post` tasks when the batch
call fails with a non-transient error or an unexpected exception. -/
def translateMultiPost (post : MultiChannelPost)
    (variants : List ChannelPost) (now : Nat)
    (batch : BatchTranslationResult) : BatchTranslateOutcome :=
  if post.primaryTextMarkdown = "" then
    { variants := variants, batchCalled := false, fallbackIds := []
      retried := false }
  else
    match post.primaryLanguageCode with
    | none =>
        { variants := variants, batchCalled := false, fallbackIds := []
          retried := false }
    | some srcCode =>
      let pending := pendingForBatch srcCode variants
      if pending = [] then
        { variants := variants, batchCalled := false, fallbackIds := []
          retried := false }
      else
        let byLang := buildByLanguage pending
        if byLang = [] then
          { variants := variants, batchCalled := false, fallbackIds := []
            retried := false }
        else
          match batch with
          | BatchTranslationResult.ok translations =>
              { variants :=
                  variants.map (applyBatchResult byLang translations now)
                batchCalled := true, fallbackIds := [], retried := false }
          | BatchTranslationResult.err code msg =>
              if code ∈ llmTransientCodes then
                { variants := variants, batchCalled := true
                  fallbackIds := [], retried := true }
              else
                { variants := variants, batchCalled := true
                  fallbackIds := pending.map (fun v => v.id)
                  retried := false }
          | BatchTranslationResult.exn msg =>
              { variants := variants, batchCalled := true
                fallbackIds := pending.map (fun v => v.id), retried := false }

/-- Example Russian variant pending translation. -/
def exampleRuPending : ChannelPost :=
  { id := 2
    channelId := 11
    languageCode := some "ru"
    sourceType := SourceType.autoTranslated
    textMarkdown := ""
    textTelegramHtml := ""
    telegramMessageId := ""
    status := ChannelPostStatus.pendingTranslation
    translationRequested := false
    translationReceivedAt := none
    errorMessage := ""
    publishedAt := none
    updatedAt := 0 }

/-- Example German variant pending translation. -/
def exampleDePending : ChannelPost :=
  { exampleRuPending with id := 3, channelId := 12, languageCode := some "de" }

/-- Example French variant pending translation. -/
def exampleFrPending : ChannelPost :=
  { exampleRuPending with id := 4, channelId := 13, languageCode := some "fr" }

/-- Counterexample for C5: batch translating to [ru, de, fr] with the
service returning only {ru, fr} leaves the de variant with the error
message "Translation to de failed" but with status still
pending_translation, not failed; and the `request_translations` entry point
schedules one individual translation task per variant rather than a batch
call. -/
theorem claim_C5_counterexample :
    (((translateMultiPost examplePost
          [exampleRuPending, exampleDePending, exampleFrPending] 9
          (BatchTranslationResult.ok
            [("ru", "Privet"), ("fr", "Bonjour")])).variants.find?
        (fun v => v.id == 3)).map (fun v => v.errorMessage))
      = some "Translation to de failed"
    ∧ (((translateMultiPost examplePost
          [exampleRuPending, exampleDePending, exampleFrPending] 9
          (BatchTranslationResult.ok
            [("ru", "Privet"), ("fr", "Bonjour")])).variants.find?
        (fun v => v.id == 3)).map (fun v => v.status))
      = some ChannelPostStatus.pendingTranslation
    ∧ (((translateMultiPost examplePost
          [exampleRuPending, exampleDePending, exampleFrPending] 9
          (BatchTranslationResult.ok
            [("ru", "Privet"), ("fr", "Bonjour")])).variants.find?
        (fun v => v.id == 3)).map (fun v => v.status))
      ≠ some ChannelPostStatus.failed
    ∧ requestTranslations examplePost
        [exampleRuPending, exampleDePending, exampleFrPending] = [2, 3, 4] := by
  refine ⟨?_, ?_, ?_, ?_⟩ <;> decide

/-- C5 as amended: the batch translation task issues a single batch call for
the pending variants; a variant that is the representative of its language
moves to draft with the translated content when its language is in the batch
result, and, when its language is absent from the result, only gets the
error message "Translation to <lang> failed" recorded while its status is
left unchanged (it is not moved to failed); on a non-transient batch error
the task falls back to one individual translation call per pending variant.
The `request_translations` entry point itself performs no batching. -/
theorem claim_C5_amended_batch_translation
    (byLang : List (String × ChannelPost))
    (translations : List (String × String)) (now : Nat) (v : ChannelPost)
    (lang : String) (w : ChannelPost)
    (hrep : byLang.find? (fun p => p.2.id == v.id) = some (lang, w)) :
    (∀ p : String × String,
        translations.find? (fun t => t.1 == lang) = some p →
        applyBatchResult byLang translations now v
          = { v with textMarkdown := p.2
                     sourceType := SourceType.autoTranslated
                     status := ChannelPostStatus.draft
                     translationReceivedAt := some now
                     errorMessage := ""
                     updatedAt := now })
    ∧ (translations.find? (fun t => t.1 == lang) = none →
        applyBatchResult byLang translations now v
          = { v with errorMessage := "Translation to " ++ lang ++ " failed"
                     updatedAt := now }
        ∧ (applyBatchResult byLang translations now v).status = v.status)
    ∧ (∀ (post : MultiChannelPost) (variants : List ChannelPost)
        (srcCode : String) (translations' : List (String × String)),
        post.primaryTextMarkdown ≠ "" →
        post.primaryLanguageCode = some srcCode →
        pendingForBatch srcCode variants ≠ [] →
        buildByLanguage (pendingForBatch srcCode variants) ≠ [] →
        translateMultiPost post variants now
            (BatchTranslationResult.ok translations')
          = { variants := variants.map (applyBatchResult
                (buildByLanguage (pendingForBatch srcCode variants))
                translations' now)
              batchCalled := true, fallbackIds := [], retried := false })
    ∧ (∀ (post : MultiChannelPost) (variants : List ChannelPost)
        (srcCode code msg : String),
        post.primaryTextMarkdown ≠ "" →
        post.primaryLanguageCode = some srcCode →
        pendingForBatch srcCode variants ≠ [] →
        buildByLanguage (pendingForBatch srcCode variants) ≠ [] →
        code ∉ llmTransientCodes →
        translateMultiPost post variants now
            (BatchTranslationResult.err code msg)
          = { variants := variants
              batchCalled := true
              fallbackIds := (pendingForBatch srcCode variants).map
                (fun x => x.id)
              retried := false }) := by
  refine ⟨?_, ?_, ?_, ?_⟩
  · intro p hp
    simp only [applyBatchResult, hrep, hp]
  · intro hp
    refine ⟨?_, ?_⟩ <;> simp only [applyBatchResult, hrep, hp]
  · intro post variants srcCode translations' h1 h2 h3 h4
    simp [translateMultiPost, h1, h2, h3, h4]
  · intro post variants srcCode code msg h1 h2 h3 h4 h5
    simp [translateMultiPost, h1, h2, h3, h4, h5]

/-- Witness for the amended C5, at the [ru, de, fr] versus {ru, fr} input:
the de variant keeps its status and records the error message, and a
non-transient batch error falls back to the three individual tasks. -/
theorem claim_C5_amended_batch_translation_witness :
    (applyBatchResult
        (buildByLanguage (pendingForBatch "en"
          [exampleRuPending, exampleDePending, exampleFrPending]))
        [("ru", "Privet"), ("fr", "Bonjour")] 9 exampleDePending
      = { exampleDePending with
          errorMessage := "Translation to " ++ "de" ++ " failed"
          updatedAt := 9 })
    ∧ translateMultiPost examplePost
        [exampleRuPending, exampleDePending, exampleFrPending] 9
        (BatchTranslationResult.err "LLM_BAD_REQUEST" "bad request")
      = { variants := [exampleRuPending, exampleDePending, exampleFrPending]
          batchCalled := true
          fallbackIds := (pendingForBatch "en"
            [exampleRuPending, exampleDePending, exampleFrPending]).map
              (fun x => x.id)
          retried := false } := by
  have h := claim_C5_amended_batch_translation
    (buildByLanguage (pendingForBatch "en"
      [exampleRuPending, exampleDePending, exampleFrPending]))
    [("ru", "Privet"), ("fr", "Bonjour")] 9 exampleDePending "de"
    exampleDePending (by decide)
  refine ⟨(h.2.1 (by decide)).1, ?_⟩
  exact h.2.2.2 examplePost
    [exampleRuPending, exampleDePending, exampleFrPending] "en"
    "LLM_BAD_REQUEST" "bad request" (by decide) rfl (by decide) (by decide)
    (by decide)
